import Mathlib

/-!
Verification of the monitoring core of `src/src/App.jsx` (the `BatteryAlertTool`
React component).  The component keeps its session state in React `useState`
hooks; the monitoring behaviour is the body of the `setInterval` callback
(lines 66-98), together with `triggerAlert` (lines 103-123), `startMonitoring`
(lines 125-135) and `stopMonitoring` (lines 137-142).

The embedding below models one firing of the interval callback as a pure step
function `tick` on a `SessionState`.  Within a single callback firing the
React state reads (`chargingData`, `alertTriggered`, `targetPercentage`) are
the values from the current render, i.e. the state *before* this firing; the
`setX` calls take effect for the next firing (the effect re-subscribes on
every state change, so consecutive firings see up-to-date state).  JavaScript
numbers are embedded as exact rationals, except that division by zero is
modelled by the `JSNum` type, which records the IEEE outcomes `Infinity`,
`-Infinity` and `NaN` that JavaScript produces (the sign of zero is irrelevant
to the operations used by this program and is not modelled).
-/

/-- A charging sample, `{ level: currentLevel, time: currentTime }` as pushed
on line 72 of `App.jsx`.  `time` is in milliseconds. -/
structure Sample where
  level : ℚ
  time : ℚ
deriving Repr, DecidableEq

/-- Result of JavaScript floating-point operations as used by the monitoring
callback: a finite value (embedded exactly as a rational), `Infinity`,
`-Infinity`, or `NaN`. -/
inductive JSNum where
  | fin : ℚ → JSNum
  | posInf : JSNum
  | negInf : JSNum
  | nan : JSNum
deriving Repr, DecidableEq

/-- JavaScript division `a / b` of finite values: finite quotient when
`b ≠ 0`, otherwise `Infinity`, `-Infinity` or `NaN` according to the sign
of `a`. -/
def jsDivQ (a b : ℚ) : JSNum :=
  if b ≠ 0 then JSNum.fin (a / b)
  else if 0 < a then JSNum.posInf
  else if a < 0 then JSNum.negInf
  else JSNum.nan

/-- The JavaScript comparison `x > 0` (line 83).  `Infinity > 0` is true;
`NaN > 0` and `-Infinity > 0` are false. -/
def jsGtZero : JSNum → Bool
  | JSNum.fin q => decide (0 < q)
  | JSNum.posInf => true
  | JSNum.negInf => false
  | JSNum.nan => false

/-- JavaScript division of a finite value `a` by a possibly non-finite
divisor: a finite value divided by an infinity is zero, and `NaN`
propagates. -/
def jsDivQN (a : ℚ) : JSNum → JSNum
  | JSNum.fin b => jsDivQ a b
  | JSNum.posInf => JSNum.fin 0
  | JSNum.negInf => JSNum.fin 0
  | JSNum.nan => JSNum.nan

/-- JavaScript `Math.ceil`: ceiling on finite values, identity on
`Infinity`, `-Infinity` and `NaN`. -/
def jsCeil : JSNum → JSNum
  | JSNum.fin q => JSNum.fin ((⌈q⌉ : ℤ) : ℚ)
  | JSNum.posInf => JSNum.posInf
  | JSNum.negInf => JSNum.negInf
  | JSNum.nan => JSNum.nan

/-- The React state of the component that the monitoring callback reads and
writes: `targetPercentage`, `isMonitoring`, `alertTriggered`, `chargingData`
and `estimatedTime` (lines 6-10 of `App.jsx`).  The presentation-only state
(`notification` string, refs, audio) is outside the model. -/
structure SessionState where
  targetPercentage : ℚ
  isMonitoring : Bool
  alertTriggered : Bool
  chargingData : List Sample
  estimatedTime : Option JSNum
deriving Repr, DecidableEq

/-- One polled battery reading fed to a firing of the interval callback:
`currentLevel = battery.level`, `battery.charging`, and
`currentTime = Date.now()` (lines 67-68). -/
structure Input where
  level : ℚ
  charging : Bool
  time : ℚ
deriving Repr, DecidableEq

/-- Observable outputs of one callback firing: `setEstimatedTime(m)`
(line 86) and the alert side effects of `triggerAlert` (line 92). -/
inductive Event where
  | estimateUpdated : JSNum → Event
  | alertFired : Event
deriving Repr, DecidableEq

/-- Lines 72-74: `newData = [...prev, sample]; if (newData.length > 50)
newData.shift()`. -/
def pushSample (prev : List Sample) (x : Sample) : List Sample :=
  let newData := prev ++ [x]
  if newData.length > 50 then newData.tail else newData

/-- The last `n` elements of a list, in order: JavaScript `l.slice(-n)`
(for `n > 0`). -/
def takeLast (n : Nat) (l : List Sample) : List Sample :=
  l.drop (l.length - n)

/-- Lines 78-81: `recentData = chargingData.slice(-10)` and the two-point
slope `(currentLevel - recentData[0].level) /
((currentTime - recentData[0].time) / 1000 / 60)`.  The endpoint is the
current reading, not an element of the array; `none` corresponds to the
`recentData[0]` access being impossible on an empty array (unreachable
under the `length > 5` gate of line 77). -/
def computeRate (data : List Sample) (lvl t : ℚ) : Option JSNum :=
  match takeLast 10 data with
  | [] => none
  | first :: _ => some (jsDivQ (lvl - first.level) ((t - first.time) / 1000 / 60))

/-- Lines 84-85: `estimatedMinutes = Math.ceil((targetPercentage -
currentLevel) / chargeRate)`. -/
def etaValue (target lvl : ℚ) (r : JSNum) : JSNum :=
  jsCeil (jsDivQN (target - lvl) r)

/-- Lines 70-75: the sample push, performed exactly when
`battery.charging && currentLevel < targetPercentage`. -/
def pushStep (s : SessionState) (i : Input) : List Sample :=
  if i.charging = true ∧ i.level < s.targetPercentage then
    pushSample s.chargingData { level := i.level, time := i.time }
  else s.chargingData

/-- Lines 77-88: the estimate update.  Both the `chargingData.length > 5`
gate (line 77) and the `chargingData.slice(-10)` read (line 78) use the
render's `chargingData`, i.e. the window *before* this firing's push.
Returns the new `estimatedTime` and the emitted events. -/
def estStep (s : SessionState) (i : Input) : Option JSNum × List Event :=
  if i.charging = true ∧ i.level < s.targetPercentage ∧ 5 < s.chargingData.length then
    match computeRate s.chargingData i.level i.time with
    | some r =>
      if jsGtZero r = true then
        (some (etaValue s.targetPercentage i.level r),
          [Event.estimateUpdated (etaValue s.targetPercentage i.level r)])
      else (s.estimatedTime, [])
    | none => (s.estimatedTime, [])
  else (s.estimatedTime, [])

/-- Line 91: `currentLevel >= targetPercentage && battery.charging &&
!alertTriggered`. -/
def fireCond (s : SessionState) (i : Input) : Prop :=
  s.targetPercentage ≤ i.level ∧ i.charging = true ∧ s.alertTriggered = false

instance (s : SessionState) (i : Input) : Decidable (fireCond s i) :=
  instDecidableAnd

/-- One firing of the interval callback, lines 66-98: the push and estimate
block (70-88), the alert check calling `triggerAlert` which performs
`setAlertTriggered(true)` (91-93, 104), and the re-arm on not-charging
`setAlertTriggered(false)` (95-97).  Returns the next state and the emitted
events. -/
def tick (s : SessionState) (i : Input) : SessionState × List Event :=
  ({ s with
      chargingData := pushStep s i
      estimatedTime := (estStep s i).1
      alertTriggered :=
        if i.charging = true then (if fireCond s i then true else s.alertTriggered)
        else false },
    (estStep s i).2 ++ (if fireCond s i then [Event.alertFired] else []))

/-- A sequence of callback firings, threading the state and concatenating
the emitted events in order. -/
def ingestList (s : SessionState) : List Input → SessionState × List Event
  | [] => (s, [])
  | i :: rest =>
    ((ingestList (tick s i).1 rest).1, (tick s i).2 ++ (ingestList (tick s i).1 rest).2)

/-- The only failure `startMonitoring` can report: line 126, `if (!battery)`. -/
inductive StartError where
  | noBatterySource : StartError
deriving Repr, DecidableEq

/-- The `battery` state object (lines 23-26): a level and a charging flag. -/
structure BatteryReading where
  level : ℚ
  charging : Bool
deriving Repr, DecidableEq

/-- Lines 125-135: `startMonitoring` fails when no battery reading is
available, otherwise sets `isMonitoring = true`, `alertTriggered = false`
and `chargingData = []`.  It does not touch `targetPercentage` or
`estimatedTime`. -/
def startMonitoring (battery : Option BatteryReading) (s : SessionState) :
    Except StartError SessionState :=
  match battery with
  | none => Except.error StartError.noBatterySource
  | some _ =>
    Except.ok { s with isMonitoring := true, alertTriggered := false, chargingData := [] }

/-- Lines 137-142: `stopMonitoring` sets `isMonitoring = false` and
`estimatedTime = null`. -/
def stopMonitoring (s : SessionState) : SessionState :=
  { s with isMonitoring := false, estimatedTime := none }

/-- Modelled from the spec (section 4.1 and claim C4), not from the source:
the rate the spec prescribes, a two-point slope over the most recent
`min(10, size)` samples of the *post-push* window, `null` when there are
fewer than 2 samples or the elapsed time in the sub-window is zero.  Used
only to compare the spec's prescription with the source behaviour. -/
def specRatePostPush (postData : List Sample) : Option ℚ :=
  match takeLast 10 postData with
  | first :: second :: rest =>
    let lastS := (second :: rest).getLast (List.cons_ne_nil _ _)
    if (lastS.time - first.time) / 1000 / 60 = 0 then none
    else some ((lastS.level - first.level) / ((lastS.time - first.time) / 1000 / 60))
  | _ => none

/-! ### Window lemmas (claim C3) -/

theorem takeLast_length_le (n : Nat) (l : List Sample) : (takeLast n l).length ≤ n := by
  simp only [takeLast, List.length_drop]
  omega

theorem takeLast_of_length_le {n : Nat} {l : List Sample} (h : l.length ≤ n) :
    takeLast n l = l := by
  simp only [takeLast]
  rw [Nat.sub_eq_zero_of_le h, List.drop_zero]

theorem takeLast_cons_of_le {n : Nat} {l : List Sample} (a : Sample) (h : n ≤ l.length) :
    takeLast n (a :: l) = takeLast n l := by
  simp only [takeLast, List.length_cons]
  rw [show l.length + 1 - n = (l.length - n) + 1 by omega, List.drop_succ_cons]

theorem pushSample_eq_takeLast {l : List Sample} (x : Sample) (h : l.length ≤ 50) :
    pushSample l x = takeLast 50 (l ++ [x]) := by
  simp only [pushSample, List.length_append, List.length_singleton]
  rcases Nat.lt_or_ge l.length 50 with hlt | hge
  · rw [if_neg (by omega), takeLast_of_length_le (by simp; omega)]
  · have h50 : l.length = 50 := le_antisymm h hge
    rw [if_pos (by omega)]
    simp only [takeLast, List.length_append, List.length_singleton, h50]
    rw [show 50 + 1 - 50 = 1 by rfl, List.drop_one]

theorem pushSample_length {l : List Sample} (x : Sample) (h : l.length ≤ 50) :
    (pushSample l x).length ≤ 50 := by
  rw [pushSample_eq_takeLast x h]
  exact takeLast_length_le 50 _

theorem foldl_pushSample (xs : List Sample) :
    ∀ l : List Sample, l.length ≤ 50 → xs.foldl pushSample l = takeLast 50 (l ++ xs) := by
  induction xs with
  | nil => intro l h; simpa using takeLast_of_length_le h |>.symm
  | cons x xs ih =>
    intro l h
    rw [List.foldl_cons, ih (pushSample l x) (pushSample_length x h)]
    rcases Nat.lt_or_ge l.length 50 with hlt | hge
    · have : pushSample l x = l ++ [x] := by
        simp only [pushSample, List.length_append, List.length_singleton]
        rw [if_neg (by omega)]
      rw [this, List.append_assoc, List.singleton_append]
    · have h50 : l.length = 50 := le_antisymm h hge
      have hps : pushSample l x = (l ++ [x]).tail := by
        simp only [pushSample, List.length_append, List.length_singleton]
        rw [if_pos (by omega)]
      cases l with
      | nil => simp at h50
      | cons a as =>
        rw [hps]
        simp only [List.cons_append, List.tail_cons]
        rw [takeLast_cons_of_le a
          (by simp only [List.length_append, List.length_cons] at h50 ⊢; omega)]
        simp [List.append_assoc]

/-- C3.  The window is bounded by 50: for every sequence of pushes starting
from the empty window the length never exceeds 50 and the retained samples
are exactly the most recently pushed 50, in insertion order; a push onto a
full window evicts the oldest sample first. -/
theorem window_bound (xs : List Sample) :
    (xs.foldl pushSample []).length ≤ 50 ∧
    xs.foldl pushSample [] = takeLast 50 xs ∧
    (∀ (l : List Sample) (x : Sample), l.length = 50 → pushSample l x = l.tail ++ [x]) := by
  refine ⟨?_, ?_, ?_⟩
  · rw [foldl_pushSample xs [] (by simp)]
    simpa using takeLast_length_le 50 xs
  · simpa using foldl_pushSample xs [] (by simp)
  · intro l x h50
    cases l with
    | nil => simp at h50
    | cons a as =>
      simp only [pushSample, List.length_append, List.length_singleton, List.length_cons] at *
      rw [if_pos (by omega)]
      simp

/-- Fifty-five concrete samples used to witness the window bound. -/
def c3Samples : List Sample := (List.range 55).map fun k => { level := k, time := k }

/-- Witness for C3 at a concrete run of 55 pushes and a concrete full
window. -/
theorem window_bound_witness :
    ((c3Samples.foldl pushSample []).length ≤ 50 ∧
      c3Samples.foldl pushSample [] = takeLast 50 c3Samples) ∧
    pushSample (takeLast 50 c3Samples) { level := 55, time := 110000 } =
      (takeLast 50 c3Samples).tail ++ [{ level := 55, time := 110000 }] :=
  ⟨⟨(window_bound c3Samples).1, (window_bound c3Samples).2.1⟩,
    (window_bound c3Samples).2.2 _ _ (by rfl)⟩

/-! ### Start behaviour (claims C8, C9) -/

/-- Concrete session whose slider target is 49, used against claim C8. -/
def c8State : SessionState :=
  { targetPercentage := 49, isMonitoring := false, alertTriggered := false,
    chargingData := [], estimatedTime := none }

/-- Counterexample to C8 as stated: with a battery reading available,
`startMonitoring` on a session whose target is 49 does not fail — it
succeeds and begins monitoring, changing the session.  No target validation
and no `InvalidTarget` error exist in `startMonitoring` (lines 125-135);
the 50..100 range is enforced only by the slider markup (lines 208-216). -/
theorem start_no_validation_cex :
    startMonitoring (some { level := 60, charging := true }) c8State =
      Except.ok { targetPercentage := 49, isMonitoring := true, alertTriggered := false,
                  chargingData := [], estimatedTime := none } ∧
    c8State.isMonitoring = false :=
  ⟨rfl, rfl⟩

/-- C8 amended: `startMonitoring` applies no validation to the target —
for every target value (49, 50, 100 and 101 alike), when a battery reading
is available it succeeds and begins monitoring. -/
theorem start_accepts_any_target (tgt : ℚ) (s : SessionState) (b : BatteryReading) :
    startMonitoring (some b) { s with targetPercentage := tgt } =
      Except.ok { s with
        targetPercentage := tgt
        isMonitoring := true
        alertTriggered := false
        chargingData := [] } := rfl

/-- Concrete session holding a leftover estimate, used against claim C9. -/
def c9State : SessionState :=
  { targetPercentage := 90, isMonitoring := false, alertTriggered := false,
    chargingData := [], estimatedTime := some (JSNum.fin 5) }

/-- Counterexample to C9 as stated: a successful `startMonitoring` does not
set `estimatedTime` back to `null` — a leftover estimate survives the start
(only `stopMonitoring`, line 141, clears it). -/
theorem start_keeps_estimate_cex :
    startMonitoring (some { level := 60, charging := true }) c9State =
      Except.ok { targetPercentage := 90, isMonitoring := true, alertTriggered := false,
                  chargingData := [], estimatedTime := some (JSNum.fin 5) } ∧
    (some (JSNum.fin 5) : Option JSNum) ≠ none :=
  ⟨rfl, by simp⟩

/-- C9 amended: every successful start clears the sample window and re-arms
the alert (`alertTriggered = false`), leaving `estimatedTime` (and the
target) unchanged rather than resetting it to `null`; with no battery
reading available, start fails with `noBatterySource` and monitoring does
not begin. -/
theorem start_resets (battery : Option BatteryReading) (s : SessionState) :
    (battery = none → startMonitoring battery s = Except.error StartError.noBatterySource) ∧
    (∀ b : BatteryReading, battery = some b →
      startMonitoring battery s =
        Except.ok { s with
          isMonitoring := true
          alertTriggered := false
          chargingData := [] }) := by
  constructor
  · rintro rfl; rfl
  · rintro b rfl; rfl

/-- Witness for the amended C9 at concrete inputs. -/
theorem start_resets_witness :
    startMonitoring none c8State = Except.error StartError.noBatterySource ∧
    startMonitoring (some { level := 70, charging := false }) c9State =
      Except.ok { c9State with
        isMonitoring := true
        alertTriggered := false
        chargingData := [] } :=
  ⟨(start_resets none c8State).1 rfl,
    (start_resets (some { level := 70, charging := false }) c9State).2 _ rfl⟩

/-! ### Basic `tick` lemmas -/

theorem tick_targetPercentage (s : SessionState) (i : Input) :
    ((tick s i).1).targetPercentage = s.targetPercentage := rfl

theorem tick_isMonitoring (s : SessionState) (i : Input) :
    ((tick s i).1).isMonitoring = s.isMonitoring := rfl

theorem tick_chargingData (s : SessionState) (i : Input) :
    ((tick s i).1).chargingData = pushStep s i := rfl

theorem tick_estimatedTime (s : SessionState) (i : Input) :
    ((tick s i).1).estimatedTime = (estStep s i).1 := rfl

theorem tick_alertTriggered (s : SessionState) (i : Input) :
    ((tick s i).1).alertTriggered =
      if i.charging = true then (if fireCond s i then true else s.alertTriggered)
      else false := rfl

theorem tick_events (s : SessionState) (i : Input) :
    (tick s i).2 = (estStep s i).2 ++ (if fireCond s i then [Event.alertFired] else []) := rfl

/-! ### Alert firing frame (claim C10) -/

/-- C10.  Firing the alert changes only the armed flag: when an ingest
arrives with `level ≥ target` while charging and armed, the next state is
the old state with `alertTriggered := true` — `isMonitoring` (so the
session keeps running and keeps processing later ingests), the target, the
window contents and `estimatedTime` are all untouched — and the only
emitted event is `alertFired`. -/
theorem alert_fire_frame (s : SessionState) (i : Input)
    (hc : i.charging = true) (hge : s.targetPercentage ≤ i.level)
    (harm : s.alertTriggered = false) :
    tick s i = ({ s with alertTriggered := true }, [Event.alertFired]) ∧
    ((tick s i).1).isMonitoring = s.isMonitoring := by
  have hfire : fireCond s i := ⟨hge, hc, harm⟩
  have hnlt : ¬ i.level < s.targetPercentage := not_lt.mpr hge
  have hpush : pushStep s i = s.chargingData := by
    unfold pushStep
    rw [if_neg]
    rintro ⟨-, h⟩; exact hnlt h
  have hest : estStep s i = (s.estimatedTime, []) := by
    unfold estStep
    rw [if_neg]
    rintro ⟨-, h, -⟩; exact hnlt h
  refine ⟨?_, rfl⟩
  unfold tick
  rw [hpush, hest, if_pos hc, if_pos hfire, if_pos hfire]
  rfl

/-- Concrete armed monitoring session used to witness C10. -/
def c10State : SessionState :=
  { targetPercentage := 90, isMonitoring := true, alertTriggered := false,
    chargingData := [{ level := 80, time := 0 }], estimatedTime := some (JSNum.fin 3) }

/-- Witness for C10 at a concrete armed session and a concrete reading at
the target. -/
theorem alert_fire_frame_witness :
    tick c10State { level := 95, charging := true, time := 2000 } =
      ({ c10State with alertTriggered := true }, [Event.alertFired]) ∧
    ((tick c10State { level := 95, charging := true, time := 2000 }).1).isMonitoring = true :=
  ⟨(alert_fire_frame c10State _ rfl (by show (90:ℚ) ≤ 95; norm_num) rfl).1,
    (alert_fire_frame c10State _ rfl (by show (90:ℚ) ≤ 95; norm_num) rfl).2⟩

/-! ### Single-fire discipline (claims C1, C2) -/

theorem estStep_count_alertFired (s : SessionState) (i : Input) :
    ((estStep s i).2).count Event.alertFired = 0 := by
  unfold estStep
  split
  · split
    · split
      · simp [List.count_cons]
      · simp
    · simp
  · simp

theorem tick_count_alertFired (s : SessionState) (i : Input) :
    ((tick s i).2).count Event.alertFired = if fireCond s i then 1 else 0 := by
  rw [tick_events, List.count_append, estStep_count_alertFired]
  split <;> simp

theorem tick_alertTriggered_stays_true (s : SessionState) (i : Input)
    (hc : i.charging = true) (ha : s.alertTriggered = true) :
    ((tick s i).1).alertTriggered = true := by
  rw [tick_alertTriggered, if_pos hc]
  split
  · rfl
  · exact ha

theorem ingestList_count_zero_of_triggered (inputs : List Input) :
    ∀ s : SessionState, (∀ i ∈ inputs, i.charging = true) → s.alertTriggered = true →
      ((ingestList s inputs).2).count Event.alertFired = 0 := by
  induction inputs with
  | nil => intro s _ _; rfl
  | cons i rest ih =>
    intro s hall ha
    have hc : i.charging = true := hall i (List.mem_cons_self i rest)
    have hnf : ¬ fireCond s i := by
      rintro ⟨-, -, hfalse⟩
      rw [ha] at hfalse
      simp at hfalse
    have hsplit : (ingestList s (i :: rest)).2 =
        (tick s i).2 ++ (ingestList (tick s i).1 rest).2 := rfl
    rw [hsplit, List.count_append, tick_count_alertFired, if_neg hnf,
      ih _ (fun j hj => hall j (List.mem_cons_of_mem i hj))
        (tick_alertTriggered_stays_true s i hc ha)]

theorem ingestList_count_of_armed (inputs : List Input) :
    ∀ s : SessionState, (∀ i ∈ inputs, i.charging = true) → s.alertTriggered = false →
      ((ingestList s inputs).2).count Event.alertFired =
        if ∃ i ∈ inputs, s.targetPercentage ≤ i.level then 1 else 0 := by
  induction inputs with
  | nil => intro s _ _; simp [ingestList]
  | cons i rest ih =>
    intro s hall ha
    have hc : i.charging = true := hall i (List.mem_cons_self i rest)
    have hsplit : (ingestList s (i :: rest)).2 =
        (tick s i).2 ++ (ingestList (tick s i).1 rest).2 := rfl
    rw [hsplit, List.count_append, tick_count_alertFired]
    by_cases hge : s.targetPercentage ≤ i.level
    · have hfire : fireCond s i := ⟨hge, hc, ha⟩
      have htrig : ((tick s i).1).alertTriggered = true := by
        rw [tick_alertTriggered, if_pos hc, if_pos hfire]
      rw [if_pos hfire,
        ingestList_count_zero_of_triggered rest _
          (fun j hj => hall j (List.mem_cons_of_mem i hj)) htrig,
        if_pos ⟨i, List.mem_cons_self i rest, hge⟩]
    · have hnf : ¬ fireCond s i := fun h => hge h.1
      have harm : ((tick s i).1).alertTriggered = false := by
        rw [tick_alertTriggered, if_pos hc, if_neg hnf]
        exact ha
      rw [if_neg hnf,
        ih _ (fun j hj => hall j (List.mem_cons_of_mem i hj)) harm,
        tick_targetPercentage, Nat.zero_add]
      have hiff : (∃ j ∈ rest, s.targetPercentage ≤ j.level) ↔
          ∃ j ∈ i :: rest, s.targetPercentage ≤ j.level := by
        constructor
        · rintro ⟨j, hj, hle⟩
          exact ⟨j, List.mem_cons_of_mem i hj, hle⟩
        · rintro ⟨j, hj, hle⟩
          rcases List.mem_cons.mp hj with rfl | hj'
          · exact absurd hle hge
          · exact ⟨j, hj', hle⟩
      exact if_congr hiff rfl rfl

/-- C1.  Within one contiguous charging episode (every ingest has
`charging == true`) the alert fires at most once; and — since every episode
begins with the session armed (`alertTriggered = false`, established by
`startMonitoring` or by the preceding not-charging ingest) — it fires
exactly once if and only if some ingest of the episode reaches the target. -/
theorem single_fire_per_episode (s : SessionState) (inputs : List Input)
    (hall : ∀ i ∈ inputs, i.charging = true) :
    ((ingestList s inputs).2).count Event.alertFired ≤ 1 ∧
    (s.alertTriggered = false →
      (((ingestList s inputs).2).count Event.alertFired = 1 ↔
        ∃ i ∈ inputs, s.targetPercentage ≤ i.level)) := by
  constructor
  · cases ha : s.alertTriggered
    · rw [ingestList_count_of_armed inputs s hall ha]
      split <;> omega
    · rw [ingestList_count_zero_of_triggered inputs s hall ha]
      omega
  · intro ha
    rw [ingestList_count_of_armed inputs s hall ha]
    by_cases hex : ∃ i ∈ inputs, s.targetPercentage ≤ i.level
    · rw [if_pos hex]
      exact iff_of_true rfl hex
    · rw [if_neg hex]
      exact iff_of_false (by omega) hex

/-- A concrete armed session at target 90 with an empty window. -/
def demoSession : SessionState :=
  { targetPercentage := 90, isMonitoring := true, alertTriggered := false,
    chargingData := [], estimatedTime := none }

/-- A concrete charging episode crossing the target at its second ingest. -/
def demoEpisode : List Input :=
  [{ level := 85, charging := true, time := 0 },
   { level := 92, charging := true, time := 2000 },
   { level := 95, charging := true, time := 4000 }]

/-- Witness for C1: on the concrete episode the alert fires exactly once. -/
theorem single_fire_per_episode_witness :
    ((ingestList demoSession demoEpisode).2).count Event.alertFired = 1 :=
  ((single_fire_per_episode demoSession demoEpisode (by decide)).2 rfl).mpr
    ⟨{ level := 92, charging := true, time := 2000 }, by simp [demoEpisode],
      by show (90:ℚ) ≤ 92; norm_num⟩

theorem fires_of_reaching_target (inputs : List Input) :
    ∀ s : SessionState, s.alertTriggered = false →
      (∃ i ∈ inputs, i.charging = true ∧ s.targetPercentage ≤ i.level) →
      Event.alertFired ∈ (ingestList s inputs).2 := by
  induction inputs with
  | nil =>
    rintro s _ ⟨i, hi, -⟩
    simp at hi
  | cons i rest ih =>
    rintro s ha hex
    have hsplit : (ingestList s (i :: rest)).2 =
        (tick s i).2 ++ (ingestList (tick s i).1 rest).2 := rfl
    rw [hsplit, List.mem_append]
    by_cases hfire : fireCond s i
    · left
      rw [tick_events, if_pos hfire]
      exact List.mem_append_right _ (List.mem_singleton_self _)
    · right
      have harm : ((tick s i).1).alertTriggered = false := by
        rw [tick_alertTriggered]
        by_cases hc : i.charging = true
        · rw [if_pos hc, if_neg hfire]
          exact ha
        · rw [if_neg hc]
      apply ih _ harm
      rw [tick_targetPercentage]
      rcases hex with ⟨j, hj, hcj, hlej⟩
      rcases List.mem_cons.mp hj with rfl | hj'
      · exact absurd ⟨hlej, hcj, ha⟩ hfire
      · exact ⟨j, hj', hcj, hlej⟩

/-- C2 amended: an ingest with `charging == false` leaves the sample window
unchanged (the source does NOT clear it — lines 95-97 only do
`setAlertTriggered(false)`) and re-arms the alert; consequently any later
ingest sequence containing a charging reading at or above the target emits
a further `alertFired`, so the alert is re-triggerable after an unplug. -/
theorem rearm_on_unplug (s : SessionState) (lvl t : ℚ) (inputs : List Input)
    (h : ∃ i ∈ inputs, i.charging = true ∧ s.targetPercentage ≤ i.level) :
    ((tick s { level := lvl, charging := false, time := t }).1).chargingData =
      s.chargingData ∧
    ((tick s { level := lvl, charging := false, time := t }).1).alertTriggered = false ∧
    Event.alertFired ∈
      (ingestList (tick s { level := lvl, charging := false, time := t }).1 inputs).2 := by
  have hpush : pushStep s { level := lvl, charging := false, time := t } = s.chargingData := by
    unfold pushStep
    rw [if_neg]
    rintro ⟨hcf, -⟩
    exact Bool.false_ne_true hcf
  have harm : ((tick s { level := lvl, charging := false, time := t }).1).alertTriggered
      = false := by
    rw [tick_alertTriggered, if_neg]
    exact Bool.false_ne_true
  refine ⟨by rw [tick_chargingData, hpush], harm, ?_⟩
  apply fires_of_reaching_target inputs _ harm
  rw [tick_targetPercentage]
  exact h

/-- A concrete alerted session with a nonempty window, used against C2. -/
def c2State : SessionState :=
  { targetPercentage := 90, isMonitoring := true, alertTriggered := true,
    chargingData := [{ level := 80, time := 0 }], estimatedTime := some (JSNum.fin 7) }

/-- Counterexample to C2 as stated: an ingest with `charging == false` does
not clear the sample window.  The source clears `chargingData` only in
`startMonitoring`; the not-charging branch (lines 95-97) merely resets
`alertTriggered`, so after this unplug ingest the window still holds its
sample. -/
theorem window_not_cleared_on_unplug_cex :
    ((tick c2State { level := 80, charging := false, time := 2000 }).1).chargingData =
      [{ level := 80, time := 0 }] ∧
    ([{ level := (80:ℚ), time := (0:ℚ) }] : List Sample) ≠ [] :=
  ⟨rfl, by simp⟩

/-- Witness for the amended C2: a fired session unplugs, stays with its
window intact, is re-armed, and a later charging ingest at the target fires
again. -/
theorem rearm_on_unplug_witness :
    ((tick c2State { level := 80, charging := false, time := 2000 }).1).chargingData =
      c2State.chargingData ∧
    ((tick c2State { level := 80, charging := false, time := 2000 }).1).alertTriggered
      = false ∧
    Event.alertFired ∈
      (ingestList (tick c2State { level := 80, charging := false, time := 2000 }).1
        [{ level := 93, charging := true, time := 4000 }]).2 :=
  rearm_on_unplug c2State 80 2000 [{ level := 93, charging := true, time := 4000 }]
    ⟨{ level := 93, charging := true, time := 4000 }, by simp, rfl,
      by show (90:ℚ) ≤ 93; norm_num⟩

/-! ### Estimate lemmas (claims C4, C5, C6, C7) -/

theorem computeRate_of_takeLast (data : List Sample) (lvl t : ℚ) (first : Sample)
    (rest : List Sample) (hrec : takeLast 10 data = first :: rest) :
    computeRate data lvl t =
      some (jsDivQ (lvl - first.level) ((t - first.time) / 1000 / 60)) := by
  unfold computeRate
  rw [hrec]

theorem estStep_of_gate (s : SessionState) (i : Input) (r : JSNum)
    (hc : i.charging = true) (hlt : i.level < s.targetPercentage)
    (hlen : 5 < s.chargingData.length)
    (hr : computeRate s.chargingData i.level i.time = some r) :
    estStep s i =
      if jsGtZero r = true then
        (some (etaValue s.targetPercentage i.level r),
          [Event.estimateUpdated (etaValue s.targetPercentage i.level r)])
      else (s.estimatedTime, []) := by
  unfold estStep
  rw [if_pos ⟨hc, hlt, hlen⟩, hr]

theorem tick_events_below_target (s : SessionState) (i : Input)
    (hlt : i.level < s.targetPercentage) :
    (tick s i).2 = (estStep s i).2 := by
  rw [tick_events, if_neg, List.append_nil]
  rintro ⟨hge, -, -⟩
  exact absurd hge (not_le.mpr hlt)

/-- The pre-push window used against claim C4: ten samples whose oldest two
levels differ, so that the pre-push and post-push trailing slices give
different slopes. -/
def c4Window : List Sample :=
  [{ level := 50, time := 0 }, { level := 58, time := 60000 },
   { level := 58, time := 120000 }, { level := 58, time := 180000 },
   { level := 58, time := 240000 }, { level := 58, time := 300000 },
   { level := 58, time := 360000 }, { level := 58, time := 420000 },
   { level := 58, time := 480000 }, { level := 58, time := 540000 }]

/-- Concrete monitoring session holding `c4Window`. -/
def c4State : SessionState :=
  { targetPercentage := 90, isMonitoring := true, alertTriggered := false,
    chargingData := c4Window, estimatedTime := none }

/-- The ingest call used against claim C4. -/
def c4Input : Input := { level := 60, charging := true, time := 600000 }

/-- Counterexample to C4 as stated: the source computes the rate against the
pre-push window (`chargingData.slice(-10)` of the render state, line 78),
not the post-push window.  At this input the emitted estimate is 30 minutes
(pre-push slope 1 unit/min), while the rate over the most recent 10 samples
of the post-push window is 2/9 units/min, whose estimate would be 135
minutes. -/
theorem pre_push_window_cex :
    (tick c4State c4Input).2 = [Event.estimateUpdated (JSNum.fin 30)] ∧
    specRatePostPush (pushSample c4State.chargingData
      { level := c4Input.level, time := c4Input.time }) = some (2/9) ∧
    etaValue c4State.targetPercentage c4Input.level (JSNum.fin (2/9)) = JSNum.fin 135 ∧
    (JSNum.fin 30 : JSNum) ≠ JSNum.fin 135 := by
  refine ⟨?_, ?_, ?_, ?_⟩
  · rw [tick_events_below_target _ _ (by show (60:ℚ) < 90; norm_num),
      estStep_of_gate c4State c4Input _ rfl (by show (60:ℚ) < 90; norm_num) (by decide)
        (computeRate_of_takeLast _ _ _ { level := 50, time := 0 } _ rfl)]
    norm_num [c4State, c4Input, jsDivQ, jsGtZero, etaValue, jsDivQN, jsCeil]
  · norm_num [specRatePostPush, pushSample, takeLast, c4State, c4Window, c4Input]
  · show etaValue (90:ℚ) (60:ℚ) (JSNum.fin (2/9)) = JSNum.fin 135
    norm_num [etaValue, jsDivQN, jsDivQ, jsCeil]
  · simp only [ne_eq, JSNum.fin.injEq]
    norm_num

/-- C4 amended: during an ingest while charging below the target, both the
minimum-history gate and the trailing slice are evaluated against the
*pre-push* window — the render's `chargingData`, without the sample this
very call pushes: no estimate is computed unless the pre-push length
exceeds 5, and the rate is the two-point slope from the first of the last
`min(10, pre-push size)` pre-push samples to the current reading. -/
theorem rate_uses_pre_push_window (s : SessionState) (i : Input)
    (hc : i.charging = true) (hlt : i.level < s.targetPercentage) :
    (s.chargingData.length ≤ 5 → estStep s i = (s.estimatedTime, [])) ∧
    (∀ (first : Sample) (rest : List Sample), 5 < s.chargingData.length →
      takeLast 10 s.chargingData = first :: rest →
      (tick s i).2 =
        (if jsGtZero (jsDivQ (i.level - first.level)
            ((i.time - first.time) / 1000 / 60)) = true
         then [Event.estimateUpdated (etaValue s.targetPercentage i.level
                (jsDivQ (i.level - first.level) ((i.time - first.time) / 1000 / 60)))]
         else [])) := by
  constructor
  · intro hle
    unfold estStep
    rw [if_neg]
    rintro ⟨-, -, hgt⟩
    omega
  · intro first rest hlen hrec
    rw [tick_events_below_target s i hlt,
      estStep_of_gate s i _ hc hlt hlen (computeRate_of_takeLast _ _ _ _ _ hrec)]
    split <;> rfl

/-- Witness for the amended C4 at the concrete session `c4State`. -/
theorem rate_uses_pre_push_window_witness :
    (tick c4State c4Input).2 =
      (if jsGtZero (jsDivQ (c4Input.level - (50:ℚ))
          ((c4Input.time - (0:ℚ)) / 1000 / 60)) = true
       then [Event.estimateUpdated (etaValue c4State.targetPercentage c4Input.level
              (jsDivQ (c4Input.level - (50:ℚ)) ((c4Input.time - (0:ℚ)) / 1000 / 60)))]
       else []) :=
  (rate_uses_pre_push_window c4State c4Input rfl (by show (60:ℚ) < 90; norm_num)).2
    { level := 50, time := 0 } _ (by decide) rfl

/-- Window of six zero-elapsed samples used against claim C5. -/
def c5Window : List Sample :=
  [{ level := 50, time := 0 }, { level := 51, time := 0 }, { level := 52, time := 0 },
   { level := 53, time := 0 }, { level := 54, time := 0 }, { level := 55, time := 0 }]

/-- Concrete monitoring session holding `c5Window`. -/
def c5State : SessionState :=
  { targetPercentage := 90, isMonitoring := true, alertTriggered := false,
    chargingData := c5Window, estimatedTime := none }

/-- Counterexample to C5 as stated: the source has no guard for a zero
elapsed time.  With `timeDiff = 0` and a positive `levelDiff`, the division
on line 81 yields `Infinity`, which passes the `chargeRate > 0` check, and
`estimateUpdated(0)` is emitted (`Math.ceil` of a finite value divided by
`Infinity`), rather than the rate being reported as `null` with nothing
emitted. -/
theorem zero_elapsed_cex :
    (tick c5State { level := 56, charging := true, time := 0 }).2 =
      [Event.estimateUpdated (JSNum.fin 0)] ∧
    ((tick c5State { level := 56, charging := true, time := 0 }).1).estimatedTime =
      some (JSNum.fin 0) := by
  have hest := estStep_of_gate c5State { level := 56, charging := true, time := 0 } _
    rfl (by show (56:ℚ) < 90; norm_num) (by decide)
    (computeRate_of_takeLast _ _ _ { level := 50, time := 0 } _ rfl)
  rw [tick_events_below_target _ _ (by show (56:ℚ) < 90; norm_num),
    tick_estimatedTime, hest]
  norm_num [c5State, jsDivQ, jsGtZero, etaValue, jsDivQN, jsCeil]

/-- C5 amended: the source leaves the zero-elapsed division unguarded.
When the trailing-slice anchor has the same timestamp as the current
reading, a positive level difference produces rate `Infinity`, which passes
the `> 0` check, and `estimateUpdated(0)` is emitted and stored; a
non-positive level difference produces `NaN` or `-Infinity`, which fails
the check, so nothing is emitted and the stored estimate is unchanged. -/
theorem zero_elapsed_unguarded (s : SessionState) (i : Input) (first : Sample)
    (rest : List Sample) (hc : i.charging = true) (hlt : i.level < s.targetPercentage)
    (hlen : 5 < s.chargingData.length)
    (hrec : takeLast 10 s.chargingData = first :: rest)
    (ht : i.time = first.time) :
    (first.level < i.level →
      (tick s i).2 = [Event.estimateUpdated (JSNum.fin 0)] ∧
      ((tick s i).1).estimatedTime = some (JSNum.fin 0)) ∧
    (i.level ≤ first.level →
      (tick s i).2 = [] ∧ ((tick s i).1).estimatedTime = s.estimatedTime) := by
  have hr := computeRate_of_takeLast s.chargingData i.level i.time first rest hrec
  have hdt : (i.time - first.time) / 1000 / 60 = 0 := by
    rw [ht]
    ring
  rw [hdt] at hr
  have hest := estStep_of_gate s i _ hc hlt hlen hr
  constructor
  · intro hlv
    have hrate : jsDivQ (i.level - first.level) 0 = JSNum.posInf := by
      unfold jsDivQ
      rw [if_neg (by simp), if_pos (by linarith)]
    rw [hrate] at hest
    rw [tick_events_below_target s i hlt, tick_estimatedTime, hest]
    norm_num [jsGtZero, etaValue, jsDivQN, jsCeil]
  · intro hlv
    have hng : jsGtZero (jsDivQ (i.level - first.level) 0) = false := by
      by_cases hneg : i.level - first.level < 0
      · unfold jsDivQ
        rw [if_neg (by simp), if_neg (by linarith), if_pos hneg]
        rfl
      · unfold jsDivQ
        rw [if_neg (by simp), if_neg (by linarith), if_neg hneg]
        rfl
    rw [hng] at hest
    rw [tick_events_below_target s i hlt, tick_estimatedTime, hest]
    simp

/-- Window of six flat zero-elapsed samples witnessing the non-positive
branch of the amended C5. -/
def c5bWindow : List Sample :=
  [{ level := 55, time := 0 }, { level := 55, time := 0 }, { level := 55, time := 0 },
   { level := 55, time := 0 }, { level := 55, time := 0 }, { level := 55, time := 0 }]

/-- Concrete session holding `c5bWindow` and a previously stored estimate. -/
def c5bState : SessionState :=
  { targetPercentage := 90, isMonitoring := true, alertTriggered := false,
    chargingData := c5bWindow, estimatedTime := some (JSNum.fin 9) }

/-- Witness for the amended C5: zero elapsed time with a flat level emits
nothing and preserves the stored estimate. -/
theorem zero_elapsed_unguarded_witness :
    (tick c5bState { level := 55, charging := true, time := 0 }).2 = [] ∧
    ((tick c5bState { level := 55, charging := true, time := 0 }).1).estimatedTime =
      some (JSNum.fin 9) :=
  (zero_elapsed_unguarded c5bState { level := 55, charging := true, time := 0 }
    { level := 55, time := 0 } _ rfl (by show (55:ℚ) < 90; norm_num) (by decide) rfl rfl).2
    (by show (55:ℚ) ≤ 55; norm_num)

/-- C6.  While charging below the target with a finite positive computed
rate `q`, the callback emits `estimateUpdated(ceil((target - level) / q))`
and stores that value; the emitted minute count is never negative (so the
spec's clamp to `≥ 0` is satisfied without any explicit clamping in the
source). -/
theorem eta_emitted (s : SessionState) (i : Input) (first : Sample) (rest : List Sample)
    (q : ℚ) (hc : i.charging = true) (hlt : i.level < s.targetPercentage)
    (hlen : 5 < s.chargingData.length)
    (hrec : takeLast 10 s.chargingData = first :: rest)
    (hq : jsDivQ (i.level - first.level) ((i.time - first.time) / 1000 / 60) = JSNum.fin q)
    (hpos : 0 < q) :
    (tick s i).2 = [Event.estimateUpdated
        (JSNum.fin ((⌈(s.targetPercentage - i.level) / q⌉ : ℤ) : ℚ))] ∧
    ((tick s i).1).estimatedTime =
      some (JSNum.fin ((⌈(s.targetPercentage - i.level) / q⌉ : ℤ) : ℚ)) ∧
    0 ≤ (⌈(s.targetPercentage - i.level) / q⌉ : ℤ) := by
  have hr := computeRate_of_takeLast s.chargingData i.level i.time first rest hrec
  rw [hq] at hr
  have hest := estStep_of_gate s i _ hc hlt hlen hr
  have hgt : jsGtZero (JSNum.fin q) = true := by
    simp [jsGtZero, hpos]
  have heta : etaValue s.targetPercentage i.level (JSNum.fin q) =
      JSNum.fin ((⌈(s.targetPercentage - i.level) / q⌉ : ℤ) : ℚ) := by
    show jsCeil (jsDivQ (s.targetPercentage - i.level) q) =
      JSNum.fin ((⌈(s.targetPercentage - i.level) / q⌉ : ℤ) : ℚ)
    unfold jsDivQ
    rw [if_pos (ne_of_gt hpos)]
    rfl
  rw [hgt] at hest
  rw [tick_events_below_target s i hlt, tick_estimatedTime, hest]
  refine ⟨by rw [if_pos rfl, heta], by rw [if_pos rfl, heta], ?_⟩
  exact Int.ceil_nonneg
    (div_nonneg (le_of_lt (sub_pos.mpr hlt)) (le_of_lt hpos))

/-- Window producing rate 0.5 units/min, for the spec's ETA example. -/
def c6Window : List Sample :=
  [{ level := 60, time := 0 }, { level := 62, time := 240000 },
   { level := 64, time := 480000 }, { level := 66, time := 720000 },
   { level := 68, time := 960000 }, { level := 69, time := 1080000 }]

/-- Concrete session for the ETA example: target 90, rate 0.5 units/min. -/
def c6State : SessionState :=
  { targetPercentage := 90, isMonitoring := true, alertTriggered := false,
    chargingData := c6Window, estimatedTime := none }

/-- The ingest of the ETA example: level 70 after 20 minutes. -/
def c6Input : Input := { level := 70, charging := true, time := 1200000 }

/-- Witness for C6, the spec's example: target 90, level 70, rate 0.5
units/min emits `estimateUpdated(40)`. -/
theorem eta_emitted_witness :
    (tick c6State c6Input).2 = [Event.estimateUpdated (JSNum.fin 40)] ∧
    0 ≤ (40:ℤ) := by
  have h := eta_emitted c6State c6Input { level := 60, time := 0 } _ (1/2) rfl
    (by show (70:ℚ) < 90; norm_num) (by decide) rfl
    (by show jsDivQ ((70:ℚ) - 60) (((1200000:ℚ) - 0) / 1000 / 60) = JSNum.fin (1/2)
        unfold jsDivQ
        norm_num)
    (by norm_num)
  refine ⟨?_, by norm_num⟩
  rw [h.1]
  norm_num [c6State, c6Input]

/-- C7.  While charging below the target with a finite computed rate
`q ≤ 0`, nothing is emitted and the stored `estimatedTime` is left
unchanged: the previous estimate is preserved (stale-until-replaced),
neither cleared nor overwritten. -/
theorem stalled_preserves_estimate (s : SessionState) (i : Input) (first : Sample)
    (rest : List Sample) (q : ℚ) (hc : i.charging = true)
    (hlt : i.level < s.targetPercentage) (hlen : 5 < s.chargingData.length)
    (hrec : takeLast 10 s.chargingData = first :: rest)
    (hq : jsDivQ (i.level - first.level) ((i.time - first.time) / 1000 / 60) = JSNum.fin q)
    (hnp : q ≤ 0) :
    (tick s i).2 = [] ∧
    ((tick s i).1).estimatedTime = s.estimatedTime := by
  have hr := computeRate_of_takeLast s.chargingData i.level i.time first rest hrec
  rw [hq] at hr
  have hest := estStep_of_gate s i _ hc hlt hlen hr
  have hng : jsGtZero (JSNum.fin q) = false := by
    simp only [jsGtZero, decide_eq_false_iff_not, not_lt]
    exact hnp
  rw [hng] at hest
  rw [tick_events_below_target s i hlt, tick_estimatedTime, hest]
  simp

/-- Flat window at level 55 over 12 minutes, for the spec's stalled
example. -/
def c7Window : List Sample :=
  [{ level := 55, time := 0 }, { level := 55, time := 120000 },
   { level := 55, time := 240000 }, { level := 55, time := 360000 },
   { level := 55, time := 480000 }, { level := 55, time := 600000 }]

/-- Concrete session for the stalled example, holding a previous estimate. -/
def c7State : SessionState :=
  { targetPercentage := 90, isMonitoring := true, alertTriggered := false,
    chargingData := c7Window, estimatedTime := some (JSNum.fin 12) }

/-- The ingest of the stalled example: still at level 55 while charging. -/
def c7Input : Input := { level := 55, charging := true, time := 720000 }

/-- Witness for C7, the spec's stalled example: flat level 55, target 90 —
nothing emitted, the stored estimate of 12 minutes unchanged. -/
theorem stalled_preserves_estimate_witness :
    (tick c7State c7Input).2 = [] ∧
    ((tick c7State c7Input).1).estimatedTime = some (JSNum.fin 12) :=
  stalled_preserves_estimate c7State c7Input { level := 55, time := 0 } _ 0 rfl
    (by show (55:ℚ) < 90; norm_num) (by decide) rfl
    (by show jsDivQ ((55:ℚ) - 55) (((720000:ℚ) - 0) / 1000 / 60) = JSNum.fin 0
        unfold jsDivQ
        norm_num)
    (le_refl 0)
